import Mathlib

/-!
Shallow embedding of the webhook verification and event-routing core of
`sanic_githubapp/core.py` (class `GitHubApp`): HMAC-SHA1 signature
verification (`_verify_webhook`), the hook registration decorator (`on`),
the view function (`_flask_view_func`) and `init_app` configuration
checking.  Byte strings are `List Nat` (each byte `< 256`), text strings
are `List Char`, handlers are opaque `Nat` identifiers.
-/

namespace GithubApp

/-! ### SHA-1, as used by `hmac.new(..., digestmod=sha1)` -/

/-- Truncation to a 32-bit word, the implicit wrap-around of C / hashlib
32-bit arithmetic. -/
def w32 (n : Nat) : Nat := n % 4294967296

/-- 32-bit left rotation by `k` of a word `n < 2^32`. -/
def rotl32 (k n : Nat) : Nat := w32 (n <<< k) ||| (n >>> (32 - k))

/-- Big-endian 8-byte rendering of the 64-bit message bit length. -/
def beBytes8 (n : Nat) : List Nat :=
  (List.range 8).map (fun i => (n >>> ((7 - i) * 8)) &&& 255)

/-- SHA-1 padding: append `0x80`, zeros and the 64-bit big-endian bit
length so the total length is a multiple of 64 bytes. -/
def padMsg (m : List Nat) : List Nat :=
  m ++ 128 :: List.replicate ((64 - ((m.length + 9) % 64)) % 64) 0
    ++ beBytes8 (m.length * 8)

/-- Split a byte list into 64-byte blocks; the first argument is fuel
bounding the number of blocks, so the recursion is structural. -/
def chunksAux : Nat → List Nat → List (List Nat)
  | 0, _ => []
  | _, [] => []
  | fuel + 1, b :: rest => ((b :: rest).take 64) :: chunksAux fuel ((b :: rest).drop 64)

/-- Split a byte list into 64-byte blocks. -/
def chunks64 (l : List Nat) : List (List Nat) := chunksAux l.length l

/-- Pack bytes into big-endian 32-bit words. -/
def bytesToWords : List Nat → List Nat
  | a :: b :: c :: d :: rest =>
      (a * 16777216 + b * 65536 + c * 256 + d) :: bytesToWords rest
  | _ => []

/-- One step of the SHA-1 message schedule: append
`rotl1 (w[t-3] xor w[t-8] xor w[t-14] xor w[t-16])`. -/
def scheduleStep (ws : List Nat) : List Nat :=
  ws ++ [rotl32 1 ((ws.getD (ws.length - 3) 0) ^^^ (ws.getD (ws.length - 8) 0)
    ^^^ (ws.getD (ws.length - 14) 0) ^^^ (ws.getD (ws.length - 16) 0))]

/-- Iterate the schedule step `n` times (16 words grow to 80). -/
def expandN : Nat → List Nat → List Nat
  | 0, ws => ws
  | n + 1, ws => expandN n (scheduleStep ws)

/-- The SHA-1 round function for round `i`. -/
def roundF (i b c d : Nat) : Nat :=
  if i < 20 then (b &&& c) ||| ((b ^^^ 4294967295) &&& d)
  else if i < 40 then b ^^^ c ^^^ d
  else if i < 60 then (b &&& c) ||| (b &&& d) ||| (c &&& d)
  else b ^^^ c ^^^ d

/-- The SHA-1 round constant for round `i`. -/
def roundK (i : Nat) : Nat :=
  if i < 20 then 1518500249
  else if i < 40 then 1859775393
  else if i < 60 then 2400959708
  else 3395469782

/-- The five-word SHA-1 chaining state. -/
structure Sha1State where
  h0 : Nat
  h1 : Nat
  h2 : Nat
  h3 : Nat
  h4 : Nat
deriving Repr, DecidableEq

/-- The SHA-1 initial state. -/
def sha1Init : Sha1State :=
  ⟨1732584193, 4023233417, 2562383102, 271733878, 3285377520⟩

/-- Process one 64-byte block: 80 rounds, then add into the chain. -/
def processBlock (st : Sha1State) (block : List Nat) : Sha1State :=
  let ws := expandN 64 (bytesToWords block)
  let fin := ws.enum.foldl
    (fun (t : Nat × Nat × Nat × Nat × Nat) (iw : Nat × Nat) =>
      let (a, b, c, d, e) := t
      let tmp := w32 (rotl32 5 a + roundF iw.1 b c d + e + roundK iw.1 + iw.2)
      (tmp, a, rotl32 30 b, c, d))
    (st.h0, st.h1, st.h2, st.h3, st.h4)
  ⟨w32 (st.h0 + fin.1), w32 (st.h1 + fin.2.1), w32 (st.h2 + fin.2.2.1),
   w32 (st.h3 + fin.2.2.2.1), w32 (st.h4 + fin.2.2.2.2)⟩

/-- Big-endian bytes of one 32-bit word. -/
def wordBytes (n : Nat) : List Nat :=
  [(n >>> 24) &&& 255, (n >>> 16) &&& 255, (n >>> 8) &&& 255, n &&& 255]

/-- SHA-1 digest of a byte string, as 20 bytes. -/
def sha1 (m : List Nat) : List Nat :=
  let st := (chunks64 (padMsg m)).foldl processBlock sha1Init
  wordBytes st.h0 ++ wordBytes st.h1 ++ wordBytes st.h2
    ++ wordBytes st.h3 ++ wordBytes st.h4

/-! ### HMAC (`hmac.new(secret, msg=body, digestmod=sha1)`) and hex -/

/-- HMAC-SHA1 of `msg` under `key`, as 20 bytes (RFC 2104, block size 64,
as implemented by the `hmac` module). -/
def hmacSha1 (key msg : List Nat) : List Nat :=
  let k0 := if key.length > 64 then sha1 key else key
  let k1 := k0 ++ List.replicate (64 - k0.length) 0
  sha1 ((k1.map (fun b => b ^^^ 92)) ++ sha1 ((k1.map (fun b => b ^^^ 54)) ++ msg))

/-- The sixteen lowercase hex digits. -/
def hexDigits : List Char := "0123456789abcdef".toList

/-- The lowercase hex digit of `n % 16`. -/
def hexChar (n : Nat) : Char := hexDigits.getD (n % 16) '0'

/-- Lowercase hex rendering of a byte string (`.hexdigest()`). -/
def hexOfBytes : List Nat → List Char
  | [] => []
  | b :: rest => hexChar (b / 16) :: hexChar (b % 16) :: hexOfBytes rest

/-- `hmac.new(secret, msg=body, digestmod=sha1).hexdigest()`. -/
def hmacSha1Hex (key msg : List Nat) : List Char := hexOfBytes (hmacSha1 key msg)

/-! ### `hmac.compare_digest` (CPython `_tscmp`): a constant-time compare.
The loop is instrumented with an iteration count so that the timing
behaviour is part of the model: the second component of the result is the
number of loop iterations performed. -/

/-- The `_tscmp` accumulation loop: or-accumulate the xor of each byte
pair, and count the iterations taken. -/
def tscmpLoop : List Char → List Char → Nat → Nat × Nat
  | x :: xs, y :: ys, acc =>
      let r := tscmpLoop xs ys (acc ||| (x.toNat ^^^ y.toNat))
      (r.1, r.2 + 1)
  | _, _, acc => (acc, 0)

/-- `hmac.compare_digest a b`: result plus the number of comparison-loop
iterations.  When the lengths differ, CPython compares `b` against itself
with the accumulator pre-set to 1, so the loop length is that of `b`
either way. -/
def compare_digest (a b : List Char) : Bool × Nat :=
  let left := if a.length = b.length then a else b
  let acc0 := if a.length = b.length then 0 else 1
  let r := tscmpLoop left b acc0
  (r.1 = 0, r.2)

/-! ### The request model and `_verify_webhook` -/

/-- A parsed inbound request as Sanic hands it to the view function:
the two headers the code reads (absent = `none`), the `action` field of
the parsed JSON body (`request.json.get('action')`), and the raw body
bytes. -/
structure Request where
  xGitHubEvent : Option (List Char)
  xHubSignature : Option (List Char)
  jsonAction : Option (List Char)
  body : List Nat
deriving Repr

/-- How a request leaves the view function other than normally:
uncaught `KeyError` on a missing header, uncaught `IndexError` from
`split('=')[1]`, or the deliberate `abort(400)`. -/
inductive HookError where
  | keyErrorEvent
  | keyErrorSignature
  | indexError
  | abort400
deriving Repr, DecidableEq

/-- Python `str.split(sep)` for a one-character separator: splits on
every occurrence, keeping empty pieces, and yields `[s]` when `sep` does
not occur (so always at least one piece). -/
def splitOnChar (sep : Char) : List Char → List (List Char)
  | [] => [[]]
  | c :: rest =>
    let r := splitOnChar sep rest
    if c = sep then [] :: r
    else
      match r with
      | [] => [[c]]
      | h :: t => (c :: h) :: t

/-- Line 177: `request.headers['X-Hub-Signature'].split('=')[1]` — the
digest half, `none` when the header has no `=` (Python `IndexError`). -/
def extractDigest (header : List Char) : Option (List Char) :=
  (splitOnChar '=' header)[1]?

/-- `_verify_webhook(request)`: returns the control-flow outcome and
whether the warning was logged.  `Except.ok ()` is a normal return; a
missing header is an uncaught `KeyError`, a header without `=` an
uncaught `IndexError`; a digest mismatch logs a warning and aborts with
HTTP 400. -/
def verify_webhook (secret : List Nat) (req : Request) :
    Except HookError Unit × Bool :=
  match req.xHubSignature with
  | none => (Except.error HookError.keyErrorSignature, false)
  | some header =>
    match extractDigest header with
    | none => (Except.error HookError.indexError, false)
    | some signature =>
      let mac := hmacSha1Hex secret req.body
      if (compare_digest mac signature).1 then (Except.ok (), false)
      else (Except.error HookError.abort400, true)

/-! ### The hook mapping (`self._hook_mappings`) and the `on` decorator -/

/-- Python dict lookup on `_hook_mappings`, modelled as first-match
lookup in an association list from event keys to handler id lists. -/
def lookupKey (m : List (List Char × List Nat)) (k : List Char) :
    Option (List Nat) :=
  match m with
  | [] => none
  | p :: rest => if p.1 = k then some p.2 else lookupKey rest k

/-- The body of the `on(event_action)` decorator (`on` is a Lean
keyword, hence the name): register handler `f` under `event_action`,
creating a singleton list for a new key and appending for an existing
one. -/
def onHook (m : List (List Char × List Nat)) (event_action : List Char)
    (f : Nat) : List (List Char × List Nat) :=
  match lookupKey m event_action with
  | none => m ++ [(event_action, [f])]
  | some _ => m.map (fun p => if p.1 = event_action then (p.1, p.2 ++ [f]) else p)

/-! ### `_flask_view_func` -/

/-- What one call of the view function did: the HTTP outcome (a normal
`text("OK", 200)` response or an error escape), the handler ids invoked
in order, and whether the signature-failure warning was logged. -/
structure ViewResult where
  response : Except HookError (String × Nat)
  invoked : List Nat
  warned : Bool
deriving Repr

/-- `_flask_view_func(request)`, line for line: read the
`X-GitHub-Event` header (`KeyError` when absent), read
`request.json.get('action')`, run `_verify_webhook`, collect handlers
for the bare event key and — when `action` is truthy — for the
`event + '.' + action` key, call them in order, return `text("OK", 200)`. -/
def flask_view_func (secret : List Nat) (m : List (List Char × List Nat))
    (req : Request) : ViewResult :=
  match req.xGitHubEvent with
  | none => ⟨Except.error HookError.keyErrorEvent, [], false⟩
  | some event =>
    let action := req.jsonAction
    match verify_webhook secret req with
    | (Except.error e, warned) => ⟨Except.error e, [], warned⟩
    | (Except.ok (), _) =>
      let fns1 : List Nat :=
        match lookupKey m event with
        | some l => [] ++ l
        | none => []
      let fns2 : List Nat :=
        match action with
        | none => fns1
        | some a =>
          if a = [] then fns1
          else
            match lookupKey m (event ++ '.' :: a) with
            | some l => fns1 ++ l
            | none => fns1
      ⟨Except.ok ("OK", 200), fns2, false⟩

/-! ### `init_app` configuration checking -/

/-- The Flask/Sanic config entries `init_app` reads; `none` is an unset
variable. -/
structure AppConfig where
  githubappId : Option Nat
  githubappKey : Option (List Nat)
  githubappSecret : Option (List Nat)
  githubappRoute : Option (List Char)
deriving Repr

/-- Python truthiness of `app.config.get('GITHUBAPP_ID')`. -/
def truthyNat : Option Nat → Bool
  | none => false
  | some n => n != 0

/-- Python truthiness of a bytes/str config value. -/
def truthyBytes : Option (List Nat) → Bool
  | none => false
  | some l => l != []

/-- An app as `init_app` touches it: its config and its bound routes. -/
structure App where
  config : AppConfig
  routes : List (List Char)
deriving Repr

/-- The `RuntimeError` message for a missing config var. -/
def missingMsg (s : List Char) : List Char :=
  "Flask-GitHubApp requires the ".toList ++ s
    ++ " config var to be set".toList

/-- `init_app(app)`: check `GITHUBAPP_ID`, `GITHUBAPP_KEY`,
`GITHUBAPP_SECRET` in order, raising `RuntimeError` at the first falsy
one; only then bind the webhook route (default path `/`). -/
def init_app (app : App) : Except (List Char) App :=
  if ¬ truthyNat app.config.githubappId then
    Except.error (missingMsg "GITHUBAPP_ID".toList)
  else if ¬ truthyBytes app.config.githubappKey then
    Except.error (missingMsg "GITHUBAPP_KEY".toList)
  else if ¬ truthyBytes app.config.githubappSecret then
    Except.error (missingMsg "GITHUBAPP_SECRET".toList)
  else
    Except.ok { app with
      routes := app.routes ++ [app.config.githubappRoute.getD "/".toList] }

/-! ### Concrete inputs used by the witnesses -/

/-- The secret `b"topsecret"` of the spec scenario, as bytes. -/
def topsecret : List Nat := "topsecret".toList.map Char.toNat

/-- The body `b'\x7b"action":"opened"\x7d'` of the spec scenario, as bytes. -/
def demoBody : List Nat :=
  [123, 34, 97, 99, 116, 105, 111, 110, 34, 58, 34, 111, 112, 101, 110, 101, 100, 34, 125]

/-- A mapping with one bare-event handler and the same compound-key
handler registered twice. -/
def demoMappings : List (List Char × List Nat) :=
  onHook (onHook (onHook [] "issues".toList 1) "issues.opened".toList 2)
    "issues.opened".toList 2

/-- A request correctly signed with `topsecret`. -/
def demoSignedReq : Request :=
  ⟨some "issues".toList, some ("sha1=".toList ++ hmacSha1Hex topsecret demoBody),
   some "opened".toList, demoBody⟩

/-- The same request with the digest tampered to `0badc0de`. -/
def demoTamperedReq : Request :=
  ⟨some "issues".toList, some "sha1=0badc0de".toList, some "opened".toList, demoBody⟩

/-- The same request with no `X-Hub-Signature` header at all. -/
def demoNoSigReq : Request :=
  ⟨some "issues".toList, none, some "opened".toList, demoBody⟩

/-- A correctly signed request with no `X-GitHub-Event` header. -/
def demoNoEventReq : Request :=
  ⟨none, some ("sha1=".toList ++ hmacSha1Hex topsecret demoBody),
   some "opened".toList, demoBody⟩

/-- An app whose config lacks `GITHUBAPP_ID` but has a key and secret. -/
def demoBadApp : App := ⟨⟨none, some [1], some [2], none⟩, []⟩

/-- What the spec claim calls the digest: the entire substring after the
first `=` of the header.  This is the spec reading of line 177, kept
separate so it can be compared with `extractDigest`, the reading the
code implements. -/
def afterFirstEq (header : List Char) : List Char :=
  (header.dropWhile (fun c => c != '=')).tail

/-! ### Arithmetic and character helper lemmas -/

/-- A bitwise or is zero only if its left operand is. -/
theorem or_eq_zero_left {a b : Nat} (h : a ||| b = 0) : a = 0 := by
  apply Nat.eq_of_testBit_eq
  intro i
  have hb := congrArg (fun n => Nat.testBit n i) h
  simp only [Nat.testBit_or, Nat.zero_testBit, Bool.or_eq_false_iff] at hb
  simp [hb.1]

/-- A bitwise or is zero only if its right operand is. -/
theorem or_eq_zero_right {a b : Nat} (h : a ||| b = 0) : b = 0 := by
  apply Nat.eq_of_testBit_eq
  intro i
  have hb := congrArg (fun n => Nat.testBit n i) h
  simp only [Nat.testBit_or, Nat.zero_testBit, Bool.or_eq_false_iff] at hb
  simp [hb.2]

/-- Characters with equal code points are equal. -/
theorem char_toNat_inj {a b : Char} (h : a.toNat = b.toNat) : a = b :=
  Char.ext (UInt32.ext_iff.mpr h)

/-- A hex digit is never the `=` character. -/
theorem hexChar_ne_eq (n : Nat) : hexChar n ≠ '=' := by
  unfold hexChar
  have h : n % 16 < 16 := Nat.mod_lt _ (by omega)
  generalize n % 16 = k at h
  interval_cases k <;> decide

/-- The hex rendering of a byte string never contains `=`. -/
theorem eq_not_mem_hexOfBytes (bs : List Nat) : '=' ∉ hexOfBytes bs := by
  induction bs with
  | nil => simp [hexOfBytes]
  | cons b rest ih =>
    simp only [hexOfBytes, List.mem_cons, not_or]
    exact ⟨fun h => hexChar_ne_eq _ h.symm, fun h => hexChar_ne_eq _ h.symm, ih⟩

/-- Hex rendering doubles the length. -/
theorem hexOfBytes_length (bs : List Nat) : (hexOfBytes bs).length = 2 * bs.length := by
  induction bs with
  | nil => rfl
  | cons b rest ih => simp [hexOfBytes, ih]; omega

/-- A SHA-1 digest is 20 bytes. -/
theorem sha1_length (m : List Nat) : (sha1 m).length = 20 := by
  simp [sha1, wordBytes]

/-- An HMAC-SHA1 digest is 20 bytes. -/
theorem hmacSha1_length (key msg : List Nat) : (hmacSha1 key msg).length = 20 := by
  unfold hmacSha1
  exact sha1_length _

/-- An HMAC-SHA1 hexdigest is 40 characters. -/
theorem hmacSha1Hex_length (key msg : List Nat) : (hmacSha1Hex key msg).length = 40 := by
  unfold hmacSha1Hex
  rw [hexOfBytes_length, hmacSha1_length]

/-! ### Lemmas about `splitOnChar` -/

/-- Splitting always yields at least one piece. -/
theorem splitOnChar_ne_nil (sep : Char) (l : List Char) : splitOnChar sep l ≠ [] := by
  cases l with
  | nil => simp [splitOnChar]
  | cons c rest =>
    simp only [splitOnChar]
    by_cases hc : c = sep
    · simp [hc]
    · simp only [if_neg hc]
      cases splitOnChar sep rest <;> simp

/-- Splitting a list free of the separator yields the singleton piece. -/
theorem splitOnChar_of_not_mem (sep : Char) (l : List Char) (h : sep ∉ l) :
    splitOnChar sep l = [l] := by
  induction l with
  | nil => rfl
  | cons c rest ih =>
    have hc : ¬ c = sep := fun hh => h (hh ▸ List.mem_cons_self c rest)
    have hr : sep ∉ rest := fun hh => h (List.mem_cons_of_mem _ hh)
    simp [splitOnChar, hc, ih hr]

/-- Splitting around the first separator occurrence peels off the prefix
piece. -/
theorem splitOnChar_append (sep : Char) (a b : List Char) (h : sep ∉ a) :
    splitOnChar sep (a ++ sep :: b) = a :: splitOnChar sep b := by
  induction a with
  | nil => simp [splitOnChar]
  | cons c a2 ih =>
    have hc : ¬ c = sep := fun hh => h (hh ▸ List.mem_cons_self c a2)
    have ha : sep ∉ a2 := fun hh => h (List.mem_cons_of_mem _ hh)
    simp only [List.cons_append, splitOnChar, if_neg hc, List.append_eq]
    rw [ih ha]

/-- The first piece of a split is the longest separator-free prefix. -/
theorem splitOnChar_head (sep : Char) (l : List Char) :
    (splitOnChar sep l)[0]? = some (l.takeWhile (fun c => c != sep)) := by
  induction l with
  | nil => rfl
  | cons c rest ih =>
    by_cases hc : c = sep
    · subst hc
      simp [splitOnChar, List.takeWhile]
    · cases hr : splitOnChar sep rest with
      | nil => exact absurd hr (splitOnChar_ne_nil sep rest)
      | cons hd tl =>
        rw [hr] at ih
        simp only [List.getElem?_cons_zero, Option.some.injEq] at ih
        have hcb : (c != sep) = true := by simpa using hc
        simp [splitOnChar, hc, hr, List.takeWhile, ih, hcb]

/-! ### Lemmas about `compare_digest` -/

/-- The comparison loop always runs for the length of the shorter
operand, whatever the contents. -/
theorem tscmpLoop_steps (a : List Char) : ∀ (b : List Char) (acc : Nat),
    (tscmpLoop a b acc).2 = min a.length b.length := by
  induction a with
  | nil => intro b acc; cases b <;> simp [tscmpLoop]
  | cons x xs ih =>
    intro b acc
    cases b with
    | nil => simp [tscmpLoop]
    | cons y ys =>
      simp only [tscmpLoop, ih, List.length_cons]
      omega

/-- A nonzero accumulator never clears. -/
theorem tscmpLoop_acc_ne (a : List Char) : ∀ (b : List Char) (acc : Nat),
    acc ≠ 0 → (tscmpLoop a b acc).1 ≠ 0 := by
  induction a with
  | nil => intro b acc h; cases b <;> simpa [tscmpLoop] using h
  | cons x xs ih =>
    intro b acc h
    cases b with
    | nil => simpa [tscmpLoop] using h
    | cons y ys =>
      simp only [tscmpLoop]
      exact ih ys _ (fun hz => h (or_eq_zero_left hz))

/-- Over equal-length operands the loop clears exactly on equality. -/
theorem tscmpLoop_zero_iff (a : List Char) : ∀ (b : List Char),
    a.length = b.length → ((tscmpLoop a b 0).1 = 0 ↔ a = b) := by
  induction a with
  | nil =>
    intro b hl
    cases b with
    | nil => simp [tscmpLoop]
    | cons y ys => simp at hl
  | cons x xs ih =>
    intro b hl
    cases b with
    | nil => simp at hl
    | cons y ys =>
      simp only [List.length_cons] at hl
      by_cases hxy : x = y
      · subst hxy
        simp only [tscmpLoop, Nat.zero_or, Nat.xor_self]
        rw [ih ys (by omega)]
        simp
      · have hx : x.toNat ^^^ y.toNat ≠ 0 :=
          fun hz => hxy (char_toNat_inj (Nat.xor_eq_zero.mp hz))
        constructor
        · intro hz
          exact absurd hz
            (by simpa only [tscmpLoop, Nat.zero_or] using
              tscmpLoop_acc_ne xs ys _ hx)
        · intro he
          exact absurd (List.cons.injEq .. ▸ he) (by simp [hxy])

/-- `compare_digest` decides equality of the two strings. -/
theorem compare_digest_eq_iff (a b : List Char) :
    (compare_digest a b).1 = true ↔ a = b := by
  unfold compare_digest
  by_cases hl : a.length = b.length
  · simp only [if_pos hl, decide_eq_true_eq]
    exact tscmpLoop_zero_iff a b hl
  · simp only [if_neg hl, decide_eq_true_eq]
    constructor
    · intro hz
      exact absurd hz (tscmpLoop_acc_ne b b 1 (by omega))
    · intro he
      exact absurd (congrArg List.length he) hl

/-- The number of comparison-loop iterations is the length of the
second operand, whatever the contents of either. -/
theorem compare_digest_steps (a b : List Char) :
    (compare_digest a b).2 = b.length := by
  unfold compare_digest
  by_cases hl : a.length = b.length
  · simp [if_pos hl, tscmpLoop_steps, hl]
  · simp [if_neg hl, tscmpLoop_steps]

/-! ### Lemmas about the verifier and the view function -/

/-- A header of the form `sha1=` followed by the correct hexdigest
passes `_verify_webhook`: the digest extracts whole (hex has no `=`)
and the constant-time compare succeeds. -/
theorem verify_webhook_valid (secret : List Nat) (req : Request)
    (hs : req.xHubSignature = some ("sha1=".toList ++ hmacSha1Hex secret req.body)) :
    verify_webhook secret req = (Except.ok (), false) := by
  have hext : extractDigest ('s' :: 'h' :: 'a' :: '1' :: '=' :: hmacSha1Hex secret req.body) =
      some (hmacSha1Hex secret req.body) := by
    unfold extractDigest
    have htag : ('s' :: 'h' :: 'a' :: '1' :: '=' :: hmacSha1Hex secret req.body) =
        ['s', 'h', 'a', '1'] ++ '=' :: hmacSha1Hex secret req.body := rfl
    have hnm : '=' ∉ hmacSha1Hex secret req.body := eq_not_mem_hexOfBytes _
    rw [htag, splitOnChar_append '=' _ _ (by decide),
      splitOnChar_of_not_mem '=' (hmacSha1Hex secret req.body) hnm]
    rfl
  have hcmp : (compare_digest (hmacSha1Hex secret req.body)
      (hmacSha1Hex secret req.body)).1 = true :=
    (compare_digest_eq_iff _ _).mpr rfl
  simp [verify_webhook, hs, hext, hcmp]

/-- A header whose extracted digest is wrong makes `_verify_webhook`
log the warning and escape through `abort(400)`. -/
theorem verify_webhook_mismatch (secret : List Nat) (req : Request)
    (header d : List Char)
    (hs : req.xHubSignature = some header)
    (hd : extractDigest header = some d)
    (hne : d ≠ hmacSha1Hex secret req.body) :
    verify_webhook secret req = (Except.error HookError.abort400, true) := by
  have hcmp : ¬ (compare_digest (hmacSha1Hex secret req.body) d).1 = true :=
    fun hc => hne ((compare_digest_eq_iff _ _).mp hc).symm
  simp [verify_webhook, hs, hd, hcmp]

/-- Once the event header is present and verification returns normally,
the view function responds `text("OK", 200)` without warning. -/
theorem view_ok (secret : List Nat) (m : List (List Char × List Nat))
    (req : Request) (event : List Char)
    (he : req.xGitHubEvent = some event)
    (hv : verify_webhook secret req = (Except.ok (), false)) :
    (flask_view_func secret m req).response = Except.ok ("OK", 200) ∧
      (flask_view_func secret m req).warned = false := by
  simp [flask_view_func, he, hv]

/-- Under the same hypotheses, the handlers called are exactly the
bare-event list followed by the compound-key list (the latter only for
a truthy `action`). -/
theorem view_invoked (secret : List Nat) (m : List (List Char × List Nat))
    (req : Request) (event : List Char)
    (he : req.xGitHubEvent = some event)
    (hv : verify_webhook secret req = (Except.ok (), false)) :
    (flask_view_func secret m req).invoked =
      (lookupKey m event).getD [] ++
        (match req.jsonAction with
         | none => []
         | some a =>
           if a = [] then []
           else (lookupKey m (event ++ '.' :: a)).getD []) := by
  simp only [flask_view_func, he, hv]
  cases hbare : lookupKey m event with
  | none =>
    cases ha : req.jsonAction with
    | none => simp [hbare, ha]
    | some a =>
      by_cases haz : a = []
      · simp [hbare, ha, haz]
      · cases hcomp : lookupKey m (event ++ '.' :: a) <;>
          simp [hbare, ha, haz, hcomp]
  | some l =>
    cases ha : req.jsonAction with
    | none => simp [hbare, ha]
    | some a =>
      by_cases haz : a = []
      · simp [hbare, ha, haz]
      · cases hcomp : lookupKey m (event ++ '.' :: a) <;>
          simp [hbare, ha, haz, hcomp]

/-! ### Lemmas about registration (`on`) -/

/-- Appending a fresh key to the mapping makes lookup find it when the
original mapping misses. -/
theorem lookupKey_append_new (m : List (List Char × List Nat)) (k : List Char)
    (fs : List Nat) (h : lookupKey m k = none) :
    lookupKey (m ++ [(k, fs)]) k = some fs := by
  induction m with
  | nil => simp [lookupKey]
  | cons p rest ih =>
    by_cases hp : p.1 = k
    · rw [lookupKey, if_pos hp] at h
      exact absurd h (by simp)
    · rw [List.cons_append, lookupKey, if_neg hp]
      rw [lookupKey, if_neg hp] at h
      exact ih h

/-- Registering under a key yields lookup of the old list plus the new
handler appended. -/
theorem lookupKey_onHook (m : List (List Char × List Nat)) (k : List Char) (f : Nat) :
    lookupKey (onHook m k f) k = some ((lookupKey m k).getD [] ++ [f]) := by
  unfold onHook
  cases hm : lookupKey m k with
  | none => simpa using lookupKey_append_new m k [f] hm
  | some l =>
    simp only [Option.getD_some]
    induction m with
    | nil => simp [lookupKey] at hm
    | cons p rest ih =>
      by_cases hp : p.1 = k
      · simp only [lookupKey, if_pos hp] at hm
        cases hm
        simp [lookupKey, hp]
      · simp only [lookupKey, if_neg hp] at hm
        simp only [List.map_cons, if_neg hp]
        simp only [lookupKey, if_neg hp]
        exact ih hm

/-- A string whose length is not 40 cannot be an HMAC-SHA1 hexdigest. -/
theorem ne_hmac_of_length {d : List Char} {key msg : List Nat}
    (hlen : d.length ≠ 40) : d ≠ hmacSha1Hex key msg :=
  fun h => hlen (by rw [h, hmacSha1Hex_length])

/-! ### The claims -/

/-- C1: for every secret and body, a request whose `X-Hub-Signature`
header is `sha1=` followed by the lowercase hex HMAC-SHA1 of the raw
body under the secret passes `_verify_webhook` (no warning, normal
return), proceeds to dispatch, and the endpoint responds HTTP 200 with
body `OK`. -/
theorem signed_request_accepted (secret : List Nat)
    (m : List (List Char × List Nat)) (req : Request) (event : List Char)
    (he : req.xGitHubEvent = some event)
    (hs : req.xHubSignature = some ("sha1=".toList ++ hmacSha1Hex secret req.body)) :
    verify_webhook secret req = (Except.ok (), false) ∧
      (flask_view_func secret m req).response = Except.ok ("OK", 200) ∧
      (flask_view_func secret m req).warned = false := by
  have hv := verify_webhook_valid secret req hs
  exact ⟨hv, view_ok secret m req event he hv⟩

/-- C1 witness: the spec scenario (secret `topsecret`, body
`b'\x7b"action":"opened"\x7d'`) at a mapping with registered handlers. -/
theorem signed_request_accepted_witness :
    demoSignedReq.xGitHubEvent = some "issues".toList ∧
    demoSignedReq.xHubSignature =
      some ("sha1=".toList ++ hmacSha1Hex topsecret demoSignedReq.body) ∧
    (verify_webhook topsecret demoSignedReq = (Except.ok (), false) ∧
      (flask_view_func topsecret demoMappings demoSignedReq).response =
        Except.ok ("OK", 200) ∧
      (flask_view_func topsecret demoMappings demoSignedReq).warned = false) :=
  ⟨rfl, rfl,
    signed_request_accepted topsecret demoMappings demoSignedReq "issues".toList rfl rfl⟩

/-- C2: a request whose extracted digest differs from the HMAC-SHA1 of
the secret over the raw body is answered by `abort(400)` with a logged
warning and zero handler invocations, and the mapping and secret being
untouched, any later correctly-signed request is still served 200 OK. -/
theorem tampered_digest_rejected (secret : List Nat)
    (m : List (List Char × List Nat)) (req : Request) (event : List Char)
    (header d : List Char)
    (he : req.xGitHubEvent = some event)
    (hs : req.xHubSignature = some header)
    (hd : extractDigest header = some d)
    (hne : d ≠ hmacSha1Hex secret req.body) :
    flask_view_func secret m req = ⟨Except.error HookError.abort400, [], true⟩ ∧
      ∀ (req2 : Request) (event2 : List Char),
        req2.xGitHubEvent = some event2 →
        req2.xHubSignature = some ("sha1=".toList ++ hmacSha1Hex secret req2.body) →
        (flask_view_func secret m req2).response = Except.ok ("OK", 200) := by
  constructor
  · have hv := verify_webhook_mismatch secret req header d hs hd hne
    simp [flask_view_func, he, hv]
  · intro req2 event2 he2 hs2
    exact (view_ok secret m req2 event2 he2 (verify_webhook_valid secret req2 hs2)).1

/-- C2 witness: the spec scenario with the digest tampered to
`0badc0de`. -/
theorem tampered_digest_rejected_witness :
    demoTamperedReq.xGitHubEvent = some "issues".toList ∧
    demoTamperedReq.xHubSignature = some "sha1=0badc0de".toList ∧
    extractDigest "sha1=0badc0de".toList = some "0badc0de".toList ∧
    "0badc0de".toList ≠ hmacSha1Hex topsecret demoTamperedReq.body ∧
    (flask_view_func topsecret demoMappings demoTamperedReq =
        ⟨Except.error HookError.abort400, [], true⟩ ∧
      ∀ (req2 : Request) (event2 : List Char),
        req2.xGitHubEvent = some event2 →
        req2.xHubSignature = some ("sha1=".toList ++ hmacSha1Hex topsecret req2.body) →
        (flask_view_func topsecret demoMappings req2).response = Except.ok ("OK", 200)) :=
  ⟨rfl, rfl, by decide, ne_hmac_of_length (by decide),
    tampered_digest_rejected topsecret demoMappings demoTamperedReq
      "issues".toList "sha1=0badc0de".toList "0badc0de".toList
      rfl rfl (by decide) (ne_hmac_of_length (by decide))⟩

/-- C3: after successful verification the invoked handlers are exactly
the list registered under the bare event key followed by — only for a
present, non-empty action — the list under the `event.action` compound
key, and registration (`on`) appends to a key's list so each list is in
registration order, duplicates kept. -/
theorem dispatch_handler_order (secret : List Nat)
    (m : List (List Char × List Nat)) (req : Request) (event : List Char)
    (he : req.xGitHubEvent = some event)
    (hv : verify_webhook secret req = (Except.ok (), false)) :
    (flask_view_func secret m req).invoked =
      (lookupKey m event).getD [] ++
        (match req.jsonAction with
         | none => []
         | some a =>
           if a = [] then []
           else (lookupKey m (event ++ '.' :: a)).getD []) ∧
    ∀ (m2 : List (List Char × List Nat)) (k : List Char) (f : Nat),
      lookupKey (onHook m2 k f) k = some ((lookupKey m2 k).getD [] ++ [f]) :=
  ⟨view_invoked secret m req event he hv, fun m2 k f => lookupKey_onHook m2 k f⟩

/-- C3 witness: on a mapping with handler 1 under `issues` and handler 2
registered twice under `issues.opened`, the signed request invokes
`[1, 2, 2]` — bare key first, compound key next, no deduplication. -/
theorem dispatch_handler_order_witness :
    demoSignedReq.xGitHubEvent = some "issues".toList ∧
    ((flask_view_func topsecret demoMappings demoSignedReq).invoked =
      (lookupKey demoMappings "issues".toList).getD [] ++
        (match demoSignedReq.jsonAction with
         | none => []
         | some a =>
           if a = [] then []
           else (lookupKey demoMappings ("issues".toList ++ '.' :: a)).getD []) ∧
    ∀ (m2 : List (List Char × List Nat)) (k : List Char) (f : Nat),
      lookupKey (onHook m2 k f) k = some ((lookupKey m2 k).getD [] ++ [f])) ∧
    (lookupKey demoMappings "issues".toList).getD [] ++
        (lookupKey demoMappings "issues.opened".toList).getD [] = [1, 2, 2] :=
  ⟨rfl,
    dispatch_handler_order topsecret demoMappings demoSignedReq "issues".toList
      rfl (verify_webhook_valid topsecret demoSignedReq rfl),
    by decide⟩

/-- C4 counterexample: a request with no `X-Hub-Signature` header does
not produce the HTTP-400 `abort` the claim asserts — it escapes with the
uncaught `KeyError` of line 177, a server-error, not a request-validation
rejection. -/
theorem missing_signature_cx :
    flask_view_func topsecret demoMappings demoNoSigReq =
      ⟨Except.error HookError.keyErrorSignature, [], false⟩ ∧
    HookError.keyErrorSignature ≠ HookError.abort400 :=
  ⟨rfl, by decide⟩

/-- C4 amended: a request whose header map has no `X-Hub-Signature`
entry escapes `_verify_webhook` with an uncaught `KeyError` (an HTTP
500-class failure, not the 400 `abort`), and no handler is invoked and
no warning logged. -/
theorem missing_signature_keyerror (secret : List Nat)
    (m : List (List Char × List Nat)) (req : Request) (event : List Char)
    (he : req.xGitHubEvent = some event)
    (hs : req.xHubSignature = none) :
    flask_view_func secret m req =
      ⟨Except.error HookError.keyErrorSignature, [], false⟩ := by
  have hv : verify_webhook secret req =
      (Except.error HookError.keyErrorSignature, false) := by
    simp [verify_webhook, hs]
  simp [flask_view_func, he, hv]

/-- C4 amended witness: the signature-less request. -/
theorem missing_signature_keyerror_witness :
    demoNoSigReq.xGitHubEvent = some "issues".toList ∧
    demoNoSigReq.xHubSignature = none ∧
    flask_view_func topsecret demoMappings demoNoSigReq =
      ⟨Except.error HookError.keyErrorSignature, [], false⟩ :=
  ⟨rfl, rfl,
    missing_signature_keyerror topsecret demoMappings demoNoSigReq "issues".toList rfl rfl⟩

/-- C5 counterexample: for the header `sha1=abc=def`, which contains a
`=`, the digest the verifier extracts is `abc` — the piece between the
first and second `=` — and not the entire substring `abc=def` after the
first `=`, as the claim states. -/
theorem split_extraction_cx :
    ('=' ∈ "sha1=abc=def".toList) ∧
    extractDigest "sha1=abc=def".toList = some "abc".toList ∧
    "abc".toList ≠ afterFirstEq "sha1=abc=def".toList :=
  ⟨by decide, by decide, by decide⟩

/-- C5 amended: for every header containing a `=`, the digest compared
is the piece of the header between the first `=` and the following `=`
(the whole remainder when no second `=` exists): writing the header as
`pre ++ "=" ++ post` with `pre` free of `=`, it is the longest
`=`-free prefix of `post`. -/
theorem extracted_digest_between_eqs (pre post : List Char) (h : '=' ∉ pre) :
    extractDigest (pre ++ '=' :: post) =
      some (post.takeWhile (fun c => c != '=')) := by
  unfold extractDigest
  rw [splitOnChar_append '=' pre post h]
  simp only [List.getElem?_cons_succ]
  exact splitOnChar_head '=' post

/-- C5 amended witness: on `sha1=abc=def` the extracted digest is the
`=`-free prefix `abc` of the remainder `abc=def`. -/
theorem extracted_digest_between_eqs_witness :
    ('=' ∉ "sha1".toList) ∧
    extractDigest ("sha1".toList ++ '=' :: "abc=def".toList) =
      some ("abc=def".toList.takeWhile (fun c => c != '=')) :=
  ⟨by decide, extracted_digest_between_eqs "sha1".toList "abc=def".toList (by decide)⟩

/-- C6: a correctly verified request whose event key has no registered
handlers, and whose compound key has none either (if an action is
present), invokes zero handlers and still gets the HTTP 200 `OK`
response. -/
theorem no_handler_noop (secret : List Nat)
    (m : List (List Char × List Nat)) (req : Request) (event : List Char)
    (he : req.xGitHubEvent = some event)
    (hv : verify_webhook secret req = (Except.ok (), false))
    (hbare : lookupKey m event = none)
    (hcomp : ∀ a, req.jsonAction = some a → lookupKey m (event ++ '.' :: a) = none) :
    flask_view_func secret m req = ⟨Except.ok ("OK", 200), [], false⟩ := by
  simp only [flask_view_func, he, hv]
  cases ha : req.jsonAction with
  | none => simp [hbare, ha]
  | some a =>
    by_cases haz : a = []
    · simp [hbare, ha, haz]
    · simp [hbare, ha, haz, hcomp a ha]

/-- C6 witness: the signed request against an empty mapping. -/
theorem no_handler_noop_witness :
    demoSignedReq.xGitHubEvent = some "issues".toList ∧
    lookupKey [] "issues".toList = none ∧
    flask_view_func topsecret [] demoSignedReq = ⟨Except.ok ("OK", 200), [], false⟩ :=
  ⟨rfl, rfl,
    no_handler_noop topsecret [] demoSignedReq "issues".toList rfl
      (verify_webhook_valid topsecret demoSignedReq rfl) rfl (fun _ _ => rfl)⟩

/-- C7 counterexample: on a mismatching digest `_verify_webhook` does
not return a boolean result — it escapes through `abort(400)` (raising),
so mismatch is handled as an exceptional outcome, against the claim. -/
theorem verify_mismatch_cx :
    verify_webhook topsecret demoTamperedReq = (Except.error HookError.abort400, true) ∧
    (verify_webhook topsecret demoTamperedReq).1 ≠ Except.ok () := by
  have h := verify_webhook_mismatch topsecret demoTamperedReq
    "sha1=0badc0de".toList "0badc0de".toList rfl (by decide)
    (ne_hmac_of_length (by decide))
  refine ⟨h, ?_⟩
  rw [h]
  exact fun hh => Except.noConfusion hh

/-- C7 amended: `_verify_webhook` returns `None` on a match and on a
mismatch logs a warning and raises through `abort(400)`; a mismatch is
not a normal boolean return. -/
theorem verify_mismatch_raises (secret : List Nat) (req : Request)
    (header d : List Char)
    (hs : req.xHubSignature = some header)
    (hd : extractDigest header = some d)
    (hne : d ≠ hmacSha1Hex secret req.body) :
    verify_webhook secret req = (Except.error HookError.abort400, true) :=
  verify_webhook_mismatch secret req header d hs hd hne

/-- C7 amended witness: the tampered request. -/
theorem verify_mismatch_raises_witness :
    demoTamperedReq.xHubSignature = some "sha1=0badc0de".toList ∧
    extractDigest "sha1=0badc0de".toList = some "0badc0de".toList ∧
    "0badc0de".toList ≠ hmacSha1Hex topsecret demoTamperedReq.body ∧
    verify_webhook topsecret demoTamperedReq = (Except.error HookError.abort400, true) :=
  ⟨rfl, by decide, ne_hmac_of_length (by decide),
    verify_mismatch_raises topsecret demoTamperedReq
      "sha1=0badc0de".toList "0badc0de".toList rfl (by decide)
      (ne_hmac_of_length (by decide))⟩

/-- C8: when `GITHUBAPP_ID`, `GITHUBAPP_KEY` or `GITHUBAPP_SECRET` is
missing, `init_app` raises `RuntimeError` before `add_route` runs: no
configured app is ever produced, so the webhook route is never bound. -/
theorem missing_config_raises (app : App)
    (h : app.config.githubappId = none ∨ app.config.githubappKey = none ∨
      app.config.githubappSecret = none) :
    (∃ msg, init_app app = Except.error msg) ∧
      ∀ app2, init_app app ≠ Except.ok app2 := by
  have herr : ∃ msg, init_app app = Except.error msg := by
    unfold init_app
    by_cases h1 : truthyNat app.config.githubappId
    · by_cases h2 : truthyBytes app.config.githubappKey
      · by_cases h3 : truthyBytes app.config.githubappSecret
        · exfalso
          rcases h with hh | hh | hh
          · rw [hh] at h1; simp [truthyNat] at h1
          · rw [hh] at h2; simp [truthyBytes] at h2
          · rw [hh] at h3; simp [truthyBytes] at h3
        · rw [if_neg (not_not_intro h1), if_neg (not_not_intro h2), if_pos h3]
          exact ⟨_, rfl⟩
      · rw [if_neg (not_not_intro h1), if_pos h2]
        exact ⟨_, rfl⟩
    · rw [if_pos h1]
      exact ⟨_, rfl⟩
  refine ⟨herr, fun app2 hok => ?_⟩
  rcases herr with ⟨msg, hmsg⟩
  rw [hmsg] at hok
  exact Except.noConfusion hok

/-- C8 witness: an app with key and secret set but no app ID. -/
theorem missing_config_raises_witness :
    (demoBadApp.config.githubappId = none ∨ demoBadApp.config.githubappKey = none ∨
      demoBadApp.config.githubappSecret = none) ∧
    ((∃ msg, init_app demoBadApp = Except.error msg) ∧
      ∀ app2, init_app demoBadApp ≠ Except.ok app2) :=
  ⟨Or.inl rfl, missing_config_raises demoBadApp (Or.inl rfl)⟩

/-- C9: the comparison `hmac.compare_digest` runs its loop a number of
iterations depending only on the length of its second operand — in
particular the iteration count is invariant under changing where the
first mismatching byte lies. -/
theorem compare_digest_constant_time (a b a2 b2 : List Char)
    (h : b.length = b2.length) :
    (compare_digest a b).2 = (compare_digest a2 b2).2 := by
  rw [compare_digest_steps, compare_digest_steps, h]

/-- C9 witness: digests differing from `abcd` first at position 0 and
at position 3 take the same number of iterations. -/
theorem compare_digest_constant_time_witness :
    ("zbcd".toList.length = "abcz".toList.length) ∧
    (compare_digest "abcd".toList "zbcd".toList).2 =
      (compare_digest "abcd".toList "abcz".toList).2 :=
  ⟨by decide,
    compare_digest_constant_time "abcd".toList "zbcd".toList
      "abcd".toList "abcz".toList (by decide)⟩

/-- C10: a request with no `X-GitHub-Event` header escapes with the
uncaught `KeyError` of line 158 — before signature verification and
before any handler invocation, and even when the signature is valid —
not with the documented 400 rejection. -/
theorem missing_event_uncaught (secret : List Nat)
    (m : List (List Char × List Nat)) (req : Request)
    (he : req.xGitHubEvent = none) :
    flask_view_func secret m req = ⟨Except.error HookError.keyErrorEvent, [], false⟩ ∧
      HookError.keyErrorEvent ≠ HookError.abort400 := by
  constructor
  · simp [flask_view_func, he]
  · decide

/-- C10 witness: a correctly signed request lacking only the event
header. -/
theorem missing_event_uncaught_witness :
    demoNoEventReq.xGitHubEvent = none ∧
    (flask_view_func topsecret demoMappings demoNoEventReq =
        ⟨Except.error HookError.keyErrorEvent, [], false⟩ ∧
      HookError.keyErrorEvent ≠ HookError.abort400) :=
  ⟨rfl, missing_event_uncaught topsecret demoMappings demoNoEventReq rfl⟩

end GithubApp
